import Mathlib

/-!
Verification of the nearflights flight tracker (src/nearflights.py) against its
natural-language specification. Python values are shallowly embedded: Python
strings become lists of characters, floats become rationals in the data
pipeline (every IEEE double is a rational) and reals in the trigonometric
distance function, nullable provider fields become Option, and a raised
exception becomes the error branch of Except.
-/

namespace NearFlights

-- A Python string, as its list of characters.
abbrev PyStr := List Char

-- Python str.strip(): drop leading and trailing whitespace.
def pyStrip (s : PyStr) : PyStr :=
  ((s.dropWhile Char.isWhitespace).reverse.dropWhile Char.isWhitespace).reverse

/-- Line 69: state[1].strip() if state[1] else "UNKNOWN". A missing callsign
and the empty callsign are both falsy, so both yield UNKNOWN; a nonempty
callsign is stripped. -/
def pyCallsign : Option PyStr → PyStr
  | some c => if c.isEmpty then ("UNKNOWN").toList else pyStrip c
  | none => ("UNKNOWN").toList

/-- Line 70: callsign.startswith((RCH, SAM, AF, NAVY, ARMY)). -/
def isMilitary (callsign : PyStr) : Bool :=
  ("RCH").toList.isPrefixOf callsign || ("SAM").toList.isPrefixOf callsign ||
    ("AF").toList.isPrefixOf callsign || ("NAVY").toList.isPrefixOf callsign ||
    ("ARMY").toList.isPrefixOf callsign

/-- Lines 97-107: the fixed callsign-to-airline table, in source order. -/
def airline_map : List (PyStr × PyStr) :=
  [ (("UAL").toList, ("United Airlines").toList),
    (("AAL").toList, ("American Airlines").toList),
    (("DAL").toList, ("Delta Air Lines").toList),
    (("SWA").toList, ("Southwest Airlines").toList),
    (("RCH").toList, ("Military - Air Force").toList),
    (("SAM").toList, ("Military - Special Air Mission").toList),
    (("AF").toList, ("Military - Air Force").toList),
    (("NAVY").toList, ("Military - Navy").toList),
    (("ARMY").toList, ("Military - Army").toList) ]

/-- Lines 94-109: prefix = callsign[:3]; airline_map.get(prefix, "Unknown Airline"). -/
def get_airline_name (callsign : PyStr) : PyStr :=
  ((airline_map.lookup (callsign.take 3)).getD (("Unknown Airline").toList))

/-- One raw positional state record from the provider (indices 0-12 of the
states array; the code reads indices 1, 2, 3, 5, 6, 7, 9, 11 and 12).
Every field may be absent (null). -/
structure RawState where
  -- index 0 (not read by the code)
  icao24 : Option PyStr := none
  -- index 1
  callsign : Option PyStr := none
  -- index 2
  origin_country : Option PyStr := none
  -- index 3, the timestamp passed to datetime.fromtimestamp at line 82
  time_position : Option Int := none
  -- index 4 (not read by the code)
  last_contact : Option Int := none
  -- index 5
  longitude : Option ℚ := none
  -- index 6
  latitude : Option ℚ := none
  -- index 7
  baro_altitude : Option ℚ := none
  -- index 8 (not read by the code)
  on_ground : Option Bool := none
  -- index 9
  velocity : Option ℚ := none
  -- index 10 (not read by the code)
  true_track : Option ℚ := none
  -- index 11, displayed as a departure airport
  vertical_rate : Option ℚ := none
  -- index 12, displayed as an arrival airport
  sensors : Option ℚ := none
deriving DecidableEq

/-- One normalized flight: the dict built at lines 72-85, one field per key.
The last_update key holds the index-3 timestamp; the strftime rendering of it
is injective and never inspected again, so the model keeps the timestamp. -/
structure Flight where
  flight_number : PyStr
  airline_name : PyStr
  military : Bool
  -- state[11] if state[11] else "Unknown"; none stands for the Unknown branch
  departure_airport : Option ℚ
  -- state[12] if state[12] else "Unknown"; none stands for the Unknown branch
  arrival_airport : Option ℚ
  distance : ℚ
  status : PyStr
  -- state[7] if state[7] is not None else "Unknown"; none stands for Unknown
  altitude : Option ℚ
  speed : ℚ
  last_update : Int
  callsign : PyStr
  origin_country : PyStr
deriving DecidableEq

-- Python truthiness of an optional number: None and zero are falsy.
def truthyOrNone (v : Option ℚ) : Option ℚ :=
  match v with
  | some q => if q = 0 then none else some q
  | none => none

/-- Line 84: state[2] if state[2] else "Unknown" (None and the empty string
are falsy). -/
def pyOrUnknown : Option PyStr → PyStr
  | some s => if s.isEmpty then ("Unknown").toList else s
  | none => ("Unknown").toList

/-- Line 81: state[9] * 1.852 if state[9] else 0 (None and zero are falsy). -/
def pySpeed : Option ℚ → ℚ
  | some v => if v = 0 then 0 else v * (1852 / 1000)
  | none => 0

-- The distance function handed to normalization, standing for the
-- float-valued self.calculate_distance (arguments lat, lon, flight_lat,
-- flight_lon, as at line 66).
abbrev DistFn := ℚ → ℚ → ℚ → ℚ → ℚ

/-- One iteration of the normalization loop, lines 61-85. A record whose
longitude (index 5) or latitude (index 6) is null is skipped (ok none). For a
retained record the dict of lines 72-85 is built; every entry is guarded
against null except last_update, where datetime.fromtimestamp(state[3]) with a
null state[3] raises a TypeError, modelled as the error branch. -/
def processState (dist : DistFn) (lat lon : ℚ) (s : RawState) : Except PyStr (Option Flight) :=
  match s.longitude, s.latitude with
  | none, _ => .ok none
  | some _, none => .ok none
  | some flight_lon, some flight_lat =>
    match s.time_position with
    | none => .error (("TypeError: fromtimestamp of None").toList)
    | some ts =>
      let callsign := pyCallsign s.callsign
      .ok (some
        { flight_number := callsign
          airline_name := get_airline_name callsign
          military := isMilitary callsign
          departure_airport := truthyOrNone s.vertical_rate
          arrival_airport := truthyOrNone s.sensors
          distance := dist lat lon flight_lat flight_lon
          status := ("Active").toList
          altitude := s.baro_altitude
          speed := pySpeed s.velocity
          last_update := ts
          callsign := callsign
          origin_country := pyOrUnknown s.origin_country })

/-- The whole for-loop of lines 60-85 over a batch of raw records: skipped
records contribute nothing, a raised TypeError aborts the loop (and, being no
RequestException, escapes get_nearby_flights). -/
def normalizeBatch (dist : DistFn) (lat lon : ℚ) : List RawState → Except PyStr (List Flight)
  | [] => .ok []
  | s :: rest =>
    match processState dist lat lon s with
    | .error e => .error e
    | .ok f? =>
      match normalizeBatch dist lat lon rest with
      | .error e => .error e
      | .ok fs => .ok (match f? with | some f => f :: fs | none => fs)

-- The sort key of line 88: lambda x: x[distance], as a boolean comparison.
def distLe (a b : Flight) : Bool :=
  decide (a.distance ≤ b.distance)

/-- Lines 87-89: flights.sort(key=lambda x: x[distance]) — a stable sort,
embedded as the stable List.mergeSort — followed by flights[:num_flights]. -/
def rank (flights : List Flight) (n : Nat) : List Flight :=
  (flights.mergeSort distLe).take n

/-- The parsed JSON body of the response, distinguishing exactly the cases the
code at line 56 distinguishes: a falsy body (not data), a body without a
states key, and a body whose states key holds a list of raw records. -/
inductive JsonBody where
  | nullish : JsonBody
  | withoutStates : JsonBody
  | withStates : List RawState → JsonBody
deriving DecidableEq

/-- The outcome of the HTTP exchange of lines 52-54: a RequestException from
requests.get, raise_for_status on a non-success status, or JSON decoding —
or a parsed body. -/
inductive FetchResult where
  | requestError : PyStr → FetchResult
  | success : JsonBody → FetchResult
deriving DecidableEq

/-- Lines 47-92, get_nearby_flights as a function of the response it got: a
RequestException is caught and yields [], a falsy body or a body without a
states key yields [], and otherwise the batch is normalized, sorted by
distance and truncated. An error from normalization is not a
RequestException, so it propagates. -/
def get_nearby_flights (dist : DistFn) (lat lon : ℚ) (num_flights : Nat)
    (resp : FetchResult) : Except PyStr (List Flight) :=
  match resp with
  | .requestError _ => .ok []
  | .success .nullish => .ok []
  | .success .withoutStates => .ok []
  | .success (.withStates states) =>
    match normalizeBatch dist lat lon states with
    | .error e => .error e
    | .ok flights => .ok (rank flights num_flights)

/-- Lines 242-243: after a refresh, if selected_index >= len(flights) then
selected_index = max(0, len(flights) - 1). The index is an integer. -/
def refreshClamp (sel : Int) (len : Nat) : Int :=
  if sel ≥ (len : Int) then max 0 ((len : Int) - 1) else sel

/-- Line 255: on the Up key, selected_index = max(0, selected_index - 1). -/
def moveUp (sel : Int) : Int :=
  max 0 (sel - 1)

/-- Line 257: on the Down key,
selected_index = min(len(flights) - 1, selected_index + 1). -/
def moveDown (sel : Int) (len : Nat) : Int :=
  min ((len : Int) - 1) (sel + 1)

-- Python math.radians: degrees to radians.
noncomputable def radians (d : ℝ) : ℝ :=
  d * Real.pi / 180

/-- Python math.atan2(y, x), the two-argument arctangent. -/
noncomputable def atan2 (y x : ℝ) : ℝ :=
  if 0 < x then Real.arctan (y / x)
  else if x < 0 ∧ 0 ≤ y then Real.arctan (y / x) + Real.pi
  else if x < 0 ∧ y < 0 then Real.arctan (y / x) - Real.pi
  else if x = 0 ∧ 0 < y then Real.pi / 2
  else if x = 0 ∧ y < 0 then -(Real.pi / 2)
  else 0

/-- Lines 111-125, calculate_distance: the Haversine great-circle distance
with Earth radius R = 6371 km, angles converted to radians. Floating point is
idealized as the real numbers. -/
noncomputable def calculate_distance (lat1 lon1 lat2 lon2 : ℝ) : ℝ :=
  let R : ℝ := 6371
  let lat1r := radians lat1
  let lon1r := radians lon1
  let lat2r := radians lat2
  let lon2r := radians lon2
  let dlat := lat2r - lat1r
  let dlon := lon2r - lon1r
  let a := Real.sin (dlat / 2) ^ 2 +
    Real.cos lat1r * Real.cos lat2r * Real.sin (dlon / 2) ^ 2
  let c := 2 * atan2 (Real.sqrt a) (Real.sqrt (1 - a))
  R * c

/-- One rendered table row: its zero-based index into the flight list, the
flight it shows, and whether it carries the highlight style. Cell
stringification (str, round) is not modelled: the claims below concern which
rows a table holds and which row is highlighted. -/
structure TableRow where
  index : Nat
  flight : Flight
  highlighted : Bool
deriving DecidableEq

/-- Lines 127-146, build_table: one row per flight of the whole list, via
enumerate(self.flights); the row at selected_index gets the on-blue style. -/
def build_table (flights : List Flight) (selected_index : Nat) : List TableRow :=
  flights.enum.map (fun p => { index := p.1, flight := p.2, highlighted := p.1 == selected_index })

/-- Lines 245-250: the table the live loop lays out each cycle is build_table
(beside build_details_panel); the loop never invokes display_flights. -/
def cycle_table (flights : List Flight) (selected_index : Nat) : List TableRow :=
  build_table flights selected_index

/-- Line 171 of display_flights: total_pages = (len(flights) + page_size - 1)
// page_size with page_size = 10. -/
def total_pages (total : Nat) : Nat :=
  (total + 10 - 1) / 10

/-- Lines 170-198 of display_flights: current_page = selected_index // 10,
rows for i in range(current_page * 10, min(current_page * 10 + 10,
len(flights))) showing flights[i], bold-green style at i == selected_index. -/
def display_rows (flights : List Flight) (selected_index : Nat) : List TableRow :=
  let page_size := 10
  let current_page := selected_index / page_size
  let start_idx := current_page * page_size
  let end_idx := min (start_idx + page_size) flights.length
  (List.range' start_idx (end_idx - start_idx)).filterMap
    (fun i => (flights.get? i).map
      (fun f => { index := i, flight := f, highlighted := i == selected_index }))

/-- Line 201 of display_flights: the footer line, Page X of Y. -/
def footer (flights : List Flight) (selected_index : Nat) : PyStr :=
  ("Page ").toList ++ (Nat.repr (selected_index / 10 + 1)).toList ++
    (" of ").toList ++ (Nat.repr (total_pages flights.length)).toList

/-- A Python value held in the flight dict. -/
inductive PyVal where
  | vStr : PyStr → PyVal
  | vNum : ℚ → PyVal
  | vBool : Bool → PyVal
  | vInt : Int → PyVal
deriving DecidableEq

/-- The flight dict built at lines 72-85, as an association list with its keys
in source order; these twelve keys are the only keys the dict ever holds. -/
def flight_dict (f : Flight) : List (PyStr × PyVal) :=
  [ (("flight_number").toList, .vStr f.flight_number),
    (("airline_name").toList, .vStr f.airline_name),
    (("military").toList, .vBool f.military),
    (("departure_airport").toList,
      match f.departure_airport with
      | some v => .vNum v
      | none => .vStr (("Unknown").toList)),
    (("arrival_airport").toList,
      match f.arrival_airport with
      | some v => .vNum v
      | none => .vStr (("Unknown").toList)),
    (("distance").toList, .vNum f.distance),
    (("status").toList, .vStr f.status),
    (("altitude").toList,
      match f.altitude with
      | some v => .vNum v
      | none => .vStr (("Unknown").toList)),
    (("speed").toList, .vNum f.speed),
    (("last_update").toList, .vInt f.last_update),
    (("callsign").toList, .vStr f.callsign),
    (("origin_country").toList, .vStr f.origin_country) ]

/-- Python dict.get(key, default). -/
def dict_get (d : List (PyStr × PyVal)) (k : PyStr) (dflt : PyVal) : PyVal :=
  ((d.lookup k).getD dflt)

/-- The numeric payload of a value; a non-number where this is used would
raise in Python and never occurs. -/
def as_num : PyVal → ℚ
  | .vNum q => q
  | .vInt n => (n : ℚ)
  | _ => 0

/-- Python round(x, 1), floats idealized as rationals; the tie-breaking rule
at exact half-tenths is immaterial to every claim below. -/
def pyRound1 (q : ℚ) : ℚ :=
  ((round (q * 10) : ℤ) : ℚ) / 10

-- The N/A default used throughout build_details_panel.
def na : PyVal :=
  .vStr (("N/A").toList)

/-- Lines 152-161: the eight labelled values interpolated into the details
f-string, in source order, each read from the flight dict with dict.get and
an N/A default. The latitude, longitude and icao24 keys are never written by
get_nearby_flights, and the Speed line tests the velocity key, also never
written. -/
def detail_lines (f : Flight) : List (PyStr × PyVal) :=
  let d := flight_dict f
  [ (("Callsign").toList, dict_get d (("callsign").toList) na),
    (("Country").toList, dict_get d (("origin_country").toList) na),
    (("Distance").toList, .vNum (pyRound1 (as_num (dict_get d (("distance").toList) (.vNum 1))))),
    (("Altitude").toList, dict_get d (("altitude").toList) na),
    (("Speed").toList,
      match d.lookup (("velocity").toList) with
      | some v => .vNum (pyRound1 (as_num v * (36 / 10)))
      | none => na),
    (("Latitude").toList, dict_get d (("latitude").toList) na),
    (("Longitude").toList, dict_get d (("longitude").toList) na),
    (("ICAO24").toList, dict_get d (("icao24").toList) na) ]

/-- The two shapes of the details panel of lines 148-162. -/
inductive DetailsPanel where
  | placeholder : DetailsPanel
  | details : List (PyStr × PyVal) → DetailsPanel
deriving DecidableEq

/-- Lines 148-162, build_details_panel: the No-flight-selected placeholder for
an empty list, else the labelled lines of flights[selected_index]; an
out-of-range index would raise an IndexError, modelled as none. -/
def build_details_panel (flights : List Flight) (selected_index : Nat) : Option DetailsPanel :=
  if flights.isEmpty then some DetailsPanel.placeholder
  else (flights.get? selected_index).map (fun f => DetailsPanel.details (detail_lines f))

-- A concrete distance function for instantiating the theorems below; the
-- theorems themselves hold for every distance function.
def distZero : DistFn :=
  fun _ _ _ _ => 0

-- Concrete provider records used in the scenario conjuncts below.
def rUAL : RawState :=
  { callsign := some (("UAL1").toList), origin_country := some (("United States").toList),
    time_position := some 1700000000, longitude := some 10, latitude := some 20 }

def rNullLon : RawState :=
  { callsign := some (("BAW9").toList), origin_country := some (("United Kingdom").toList),
    time_position := some 1700000000, latitude := some 30 }

def rDAL : RawState :=
  { callsign := some (("DAL45").toList), origin_country := some (("United States").toList),
    time_position := some 1700000000, longitude := some 11, latitude := some 21 }

def rRCH : RawState :=
  { callsign := some (("RCH123").toList), origin_country := some (("United States").toList),
    time_position := some 1700000000, longitude := some 1, latitude := some 2 }

-- Coordinates present, index-3 timestamp null: the record that crashes
-- normalization (line 82).
def crashRecord : RawState :=
  { longitude := some 1, latitude := some 2 }

-- Coordinates and timestamp present, every other field null.
def sparseRecord : RawState :=
  { longitude := some 1, latitude := some 2, time_position := some 0 }

-- The flight that normalizing rRCH with distZero from (0, 0) produces.
def rchFlight : Flight :=
  { flight_number := ("RCH123").toList, airline_name := ("Military - Air Force").toList,
    military := true, departure_airport := none, arrival_airport := none, distance := 0,
    status := ("Active").toList, altitude := none, speed := 0, last_update := 1700000000,
    callsign := ("RCH123").toList, origin_country := ("United States").toList }

-- The flight that normalizing rDAL with distZero from (0, 0) produces.
def dal45Flight : Flight :=
  { flight_number := ("DAL45").toList, airline_name := ("Delta Air Lines").toList,
    military := false, departure_airport := none, arrival_airport := none, distance := 0,
    status := ("Active").toList, altitude := none, speed := 0, last_update := 1700000000,
    callsign := ("DAL45").toList, origin_country := ("United States").toList }

-- A normalized flight at a chosen distance, for the renderer scenarios.
def demoFlight (q : ℚ) : Flight :=
  { flight_number := ("UAL1").toList, airline_name := ("United Airlines").toList,
    military := false, departure_airport := none, arrival_airport := none, distance := q,
    status := ("Active").toList, altitude := none, speed := 0, last_update := 0,
    callsign := ("UAL1").toList, origin_country := ("United States").toList }

-- An eleven-flight ranked list: longer than one display page.
def elevenFlights : List Flight :=
  (List.range 11).map (fun i => demoFlight (i : ℚ))

/-- C4: on a transport failure or non-success HTTP response (both surface as a
caught RequestException) the fetch propagates no exception, consumes its one
response without retrying, and returns an empty flight list; a falsy response
body and a body without a states list likewise yield an empty list rather
than an error. -/
theorem nf_C4 (dist : DistFn) (lat lon : ℚ) (n : Nat) (msg : PyStr) :
    get_nearby_flights dist lat lon n (.requestError msg) = .ok [] ∧
    get_nearby_flights dist lat lon n (.success .nullish) = .ok [] ∧
    get_nearby_flights dist lat lon n (.success .withoutStates) = .ok [] :=
  ⟨rfl, rfl, rfl⟩

/-- C5: the claim fails on the code. A record whose longitude and latitude are
present but whose index-3 timestamp is null makes line 82 evaluate
datetime.fromtimestamp(None), raising a TypeError that no except clause
catches, so the refresh crashes; with a timestamp present, every other field
may be null and normalization completes. -/
theorem nf_C5 :
    processState distZero 0 0 crashRecord =
      .error (("TypeError: fromtimestamp of None").toList) ∧
    get_nearby_flights distZero 0 0 10 (.success (.withStates [crashRecord])) =
      .error (("TypeError: fromtimestamp of None").toList) ∧
    (normalizeBatch distZero 0 0 [sparseRecord]).toOption.map List.length = some 1 :=
  ⟨rfl, rfl, rfl⟩

/-- C3: for a non-empty flight list the refresh re-clamp keeps the selection
index equal to min(previous, length - 1), within [0, length), and never
negative; Up and Down saturate at 0 and length - 1 with no wraparound; a list
shrinking from 5 to 2 with index 4 re-clamps the index to 1. -/
theorem nf_C3 (sel : Int) (len : Nat) (h0 : 0 ≤ sel) (hlen : 0 < len) :
    (0 ≤ refreshClamp sel len ∧ refreshClamp sel len < (len : Int)) ∧
    refreshClamp sel len = min sel ((len : Int) - 1) ∧
    (sel < (len : Int) →
      0 ≤ moveUp sel ∧ moveUp sel < (len : Int) ∧
      0 ≤ moveDown sel len ∧ moveDown sel len < (len : Int)) ∧
    moveUp 0 = 0 ∧
    moveDown ((len : Int) - 1) len = (len : Int) - 1 ∧
    refreshClamp 4 2 = 1 := by
  unfold refreshClamp moveUp moveDown
  split_ifs <;> omega

/-- Witness for nf_C3 at the shrink scenario: the previous index 4 against a
list of the new length 2. -/
theorem nf_C3_witness :
    (0 ≤ refreshClamp 4 2 ∧ refreshClamp 4 2 < ((2 : Nat) : Int)) ∧
    refreshClamp 4 2 = min 4 (((2 : Nat) : Int) - 1) ∧
    ((4 : Int) < ((2 : Nat) : Int) →
      0 ≤ moveUp 4 ∧ moveUp 4 < ((2 : Nat) : Int) ∧
      0 ≤ moveDown 4 2 ∧ moveDown 4 2 < ((2 : Nat) : Int)) ∧
    moveUp 0 = 0 ∧
    moveDown (((2 : Nat) : Int) - 1) 2 = ((2 : Nat) : Int) - 1 ∧
    refreshClamp 4 2 = 1 :=
  nf_C3 4 2 (by decide) (by decide)

-- The sort key comparison is transitive.
theorem distLe_trans : ∀ (a b c : Flight), distLe a b → distLe b c → distLe a c := by
  intro a b c h1 h2
  simp only [distLe, decide_eq_true_eq] at h1 h2 ⊢
  exact le_trans h1 h2

-- The sort key comparison is total.
theorem distLe_total : ∀ (a b : Flight), distLe a b || distLe b a := by
  intro a b
  simp only [distLe, Bool.or_eq_true, decide_eq_true_eq]
  exact le_total _ _

/-- Stability of the sort of line 88: a predicate whose selected elements are
mutually comparable (in particular, elements sharing one distance) selects the
same subsequence, in the same order, before and after sorting. -/
theorem mergeSort_filter_distLe (fl : List Flight) (p : Flight → Bool)
    (hp : ∀ a b, p a → p b → distLe a b) :
    (fl.mergeSort distLe).filter p = fl.filter p := by
  have hpair : (fl.filter p).Pairwise (fun a b => distLe a b = true) := by
    refine List.pairwise_of_forall_mem_list ?_
    intro a ha b hb
    exact hp a b (List.of_mem_filter ha) (List.of_mem_filter hb)
  have hsub2 : List.Sublist (fl.filter p) (fl.mergeSort distLe) :=
    List.sublist_mergeSort distLe_trans distLe_total hpair (List.filter_sublist fl)
  have h4 : List.Sublist (fl.filter p) ((fl.mergeSort distLe).filter p) := by
    simpa [List.filter_filter, Bool.and_self] using hsub2.filter p
  have hperm : List.Perm ((fl.mergeSort distLe).filter p) (fl.filter p) :=
    (List.mergeSort_perm fl distLe).filter p
  exact (h4.eq_of_length hperm.length_eq.symm).symm

/-- C1: ranking returns the first min(N, length) flights of the input sorted
ascending by distance; the sort is stable (for each distance value the
selected flights keep their original relative order); empty input yields
empty output; and re-ranking the output with the same N returns it
unchanged. -/
theorem nf_C1 (flights : List Flight) (n : Nat) :
    (rank flights n).length = min n flights.length ∧
    (rank flights n).Pairwise (fun a b => a.distance ≤ b.distance) ∧
    List.Perm (rank flights flights.length) flights ∧
    (∀ q : ℚ, (rank flights flights.length).filter (fun f => decide (f.distance = q)) =
      flights.filter (fun f => decide (f.distance = q))) ∧
    rank ([] : List Flight) n = [] ∧
    rank (rank flights n) n = rank flights n := by
  have hsortedFull : (flights.mergeSort distLe).Pairwise (fun a b => distLe a b = true) :=
    List.sorted_mergeSort distLe_trans distLe_total flights
  have hrank_sorted : ∀ m : Nat, (rank flights m).Pairwise (fun a b => distLe a b = true) :=
    fun m => List.Pairwise.sublist (List.take_sublist m _) hsortedFull
  have hfull : rank flights flights.length = flights.mergeSort distLe := by
    rw [rank]
    exact List.take_of_length_le (by simp)
  refine ⟨by simp [rank], ?_, ?_, ?_, by simp [rank], ?_⟩
  · exact (hrank_sorted n).imp (fun h => of_decide_eq_true h)
  · rw [hfull]
    exact List.mergeSort_perm flights distLe
  · intro q
    rw [hfull]
    refine mergeSort_filter_distLe flights _ ?_
    intro a b ha hb
    simp only [decide_eq_true_eq] at ha hb
    simp [distLe, ha, hb]
  · have h1 : (rank flights n).mergeSort distLe = rank flights n :=
      List.mergeSort_of_sorted (hrank_sorted n)
    show ((rank flights n).mergeSort distLe).take n = rank flights n
    rw [h1]
    show ((flights.mergeSort distLe).take n).take n = rank flights n
    rw [List.take_take, Nat.min_self]
    rfl

/-- C2: a raw record whose longitude (index 5) or latitude (index 6) is null
is skipped and never reaches the normalized output, and removing such a
record from a batch changes nothing for the other records; the 3-record batch
with one null-longitude record normalizes to exactly 2 flights. -/
theorem nf_C2 (dist : DistFn) (lat lon : ℚ) (xs ys : List RawState) (r : RawState)
    (h : r.longitude = none ∨ r.latitude = none) :
    processState dist lat lon r = .ok none ∧
    normalizeBatch dist lat lon (xs ++ r :: ys) = normalizeBatch dist lat lon (xs ++ ys) ∧
    (normalizeBatch distZero 0 0 [rUAL, rNullLon, rDAL]).toOption.map List.length = some 2 := by
  have hskip : processState dist lat lon r = .ok none := by
    rcases h with h | h
    · simp [processState, h]
    · rcases h5 : r.longitude with _ | lonv
      · simp [processState, h5]
      · simp [processState, h5, h]
  refine ⟨hskip, ?_, rfl⟩
  induction xs with
  | nil =>
    simp only [List.nil_append, normalizeBatch, hskip]
    cases normalizeBatch dist lat lon ys <;> rfl
  | cons a t ih => simp [normalizeBatch, ih]

/-- Witness for nf_C2: the null-longitude record rNullLon, skipped alone and
skipped from inside a batch. -/
theorem nf_C2_witness :
    processState distZero 0 0 rNullLon = .ok none ∧
    normalizeBatch distZero 0 0 ([] ++ rNullLon :: []) = normalizeBatch distZero 0 0 ([] ++ []) ∧
    (normalizeBatch distZero 0 0 [rUAL, rNullLon, rDAL]).toOption.map List.length = some 2 :=
  nf_C2 distZero 0 0 [] [] rNullLon (Or.inl rfl)

/-- C6: a normalized flight is flagged military exactly when its processed
(trimmed, UNKNOWN-defaulted) callsign starts with RCH, SAM, AF, NAVY or ARMY,
a check separate from (and computed before) the airline-name lookup; callsign
RCH123 gives military true with airline Military - Air Force, DAL45 gives
military false with Delta Air Lines, and an absent or blank callsign becomes
UNKNOWN with Unknown Airline. -/
theorem nf_C6 (dist : DistFn) (lat lon : ℚ) (r : RawState) (f : Flight)
    (h : processState dist lat lon r = .ok (some f)) :
    f.military = isMilitary f.callsign ∧
    f.airline_name = get_airline_name f.callsign ∧
    f.callsign = pyCallsign r.callsign ∧
    isMilitary f.callsign =
      (("RCH").toList.isPrefixOf f.callsign || ("SAM").toList.isPrefixOf f.callsign ||
        ("AF").toList.isPrefixOf f.callsign || ("NAVY").toList.isPrefixOf f.callsign ||
        ("ARMY").toList.isPrefixOf f.callsign) ∧
    pyCallsign (some (("RCH123").toList)) = ("RCH123").toList ∧
    isMilitary (("RCH123").toList) = true ∧
    get_airline_name (("RCH123").toList) = ("Military - Air Force").toList ∧
    pyCallsign (some (("DAL45").toList)) = ("DAL45").toList ∧
    isMilitary (("DAL45").toList) = false ∧
    get_airline_name (("DAL45").toList) = ("Delta Air Lines").toList ∧
    pyCallsign none = ("UNKNOWN").toList ∧
    pyCallsign (some []) = ("UNKNOWN").toList ∧
    get_airline_name (("UNKNOWN").toList) = ("Unknown Airline").toList ∧
    isMilitary (("UNKNOWN").toList) = false := by
  unfold processState at h
  rcases h5 : r.longitude with _ | lonv <;> rw [h5] at h
  · simp at h
  rcases h6 : r.latitude with _ | latv <;> rw [h6] at h
  · simp at h
  rcases h3 : r.time_position with _ | ts <;> rw [h3] at h
  · simp at h
  simp only [Except.ok.injEq, Option.some.injEq] at h
  subst h
  exact ⟨rfl, rfl, rfl, rfl, by decide, by decide, by decide, by decide, by decide,
    by decide, by decide, by decide, by decide, by decide⟩

/-- Witness for nf_C6: the record rRCH normalizes to rchFlight, whose military
flag, airline name and callsign are as the claim states. -/
theorem nf_C6_witness :
    rchFlight.military = isMilitary rchFlight.callsign ∧
    rchFlight.airline_name = get_airline_name rchFlight.callsign ∧
    rchFlight.callsign = pyCallsign rRCH.callsign ∧
    isMilitary rchFlight.callsign =
      (("RCH").toList.isPrefixOf rchFlight.callsign ||
        ("SAM").toList.isPrefixOf rchFlight.callsign ||
        ("AF").toList.isPrefixOf rchFlight.callsign ||
        ("NAVY").toList.isPrefixOf rchFlight.callsign ||
        ("ARMY").toList.isPrefixOf rchFlight.callsign) ∧
    pyCallsign (some (("RCH123").toList)) = ("RCH123").toList ∧
    isMilitary (("RCH123").toList) = true ∧
    get_airline_name (("RCH123").toList) = ("Military - Air Force").toList ∧
    pyCallsign (some (("DAL45").toList)) = ("DAL45").toList ∧
    isMilitary (("DAL45").toList) = false ∧
    get_airline_name (("DAL45").toList) = ("Delta Air Lines").toList ∧
    pyCallsign none = ("UNKNOWN").toList ∧
    pyCallsign (some []) = ("UNKNOWN").toList ∧
    get_airline_name (("UNKNOWN").toList) = ("Unknown Airline").toList ∧
    isMilitary (("UNKNOWN").toList) = false :=
  nf_C6 distZero 0 0 rRCH rchFlight rfl

/-- C9: the claim fails on the code. The detail panel does show the
placeholder on an empty list and does draw callsign, country, distance and
altitude from the selected flight, but its Latitude, Longitude, ICAO24 and
Speed lines are the constant N/A for every flight, because get_nearby_flights
never writes the latitude, longitude, icao24 or velocity keys it reads (the
coordinates are read into locals at lines 64-65 and dropped). -/
theorem nf_C9 :
    build_details_panel [] 0 = some DetailsPanel.placeholder ∧
    (∀ f : Flight,
      (detail_lines f).lookup (("Latitude").toList) = some na ∧
      (detail_lines f).lookup (("Longitude").toList) = some na ∧
      (detail_lines f).lookup (("ICAO24").toList) = some na ∧
      (detail_lines f).lookup (("Speed").toList) = some na ∧
      (detail_lines f).lookup (("Callsign").toList) = some (PyVal.vStr f.callsign) ∧
      (detail_lines f).lookup (("Country").toList) = some (PyVal.vStr f.origin_country) ∧
      (detail_lines f).lookup (("Distance").toList) =
        some (PyVal.vNum (pyRound1 f.distance)) ∧
      build_details_panel [f] 0 = some (DetailsPanel.details (detail_lines f))) ∧
    processState distZero 0 0 rDAL = .ok (some dal45Flight) ∧
    (detail_lines dal45Flight).lookup (("Latitude").toList) = some na :=
  ⟨rfl, fun f => ⟨rfl, rfl, rfl, rfl, rfl, rfl, rfl, rfl⟩, rfl, rfl⟩

-- calculate_distance with its locals inlined, for rewriting.
theorem calculate_distance_eq (lat1 lon1 lat2 lon2 : ℝ) :
    calculate_distance lat1 lon1 lat2 lon2 =
      6371 * (2 * atan2
        (Real.sqrt (Real.sin ((radians lat2 - radians lat1) / 2) ^ 2 +
          Real.cos (radians lat1) * Real.cos (radians lat2) *
            Real.sin ((radians lon2 - radians lon1) / 2) ^ 2))
        (Real.sqrt (1 - (Real.sin ((radians lat2 - radians lat1) / 2) ^ 2 +
          Real.cos (radians lat1) * Real.cos (radians lat2) *
            Real.sin ((radians lon2 - radians lon1) / 2) ^ 2)))) :=
  rfl

-- The squared half-angle sine is symmetric in its difference.
theorem sin_half_sub_sq_comm (x y : ℝ) :
    Real.sin ((x - y) / 2) ^ 2 = Real.sin ((y - x) / 2) ^ 2 := by
  rw [show (x - y) / 2 = -((y - x) / 2) by ring, Real.sin_neg]
  ring

/-- C7: calculate_distance is a pure function of its four coordinates, hence
deterministic; it is the Haversine great-circle distance with Earth radius
6371 km and angles converted to radians (the definition above); and it
vanishes on equal coordinate pairs and is symmetric. -/
theorem nf_C7 (lat1 lon1 lat2 lon2 : ℝ) :
    calculate_distance lat1 lon1 lat1 lon1 = 0 ∧
    calculate_distance lat1 lon1 lat2 lon2 = calculate_distance lat2 lon2 lat1 lon1 := by
  constructor
  · rw [calculate_distance_eq, sub_self, sub_self]
    norm_num [Real.sqrt_zero, Real.sqrt_one, atan2, Real.arctan_zero]
  · rw [calculate_distance_eq lat1 lon1 lat2 lon2, calculate_distance_eq lat2 lon2 lat1 lon1,
      sin_half_sub_sq_comm (radians lat2) (radians lat1),
      sin_half_sub_sq_comm (radians lon2) (radians lon1),
      mul_comm (Real.cos (radians lat1)) (Real.cos (radians lat2))]

/-- C10: the airline lookup keys on callsign[:3]; the four-character table
keys NAVY and ARMY can therefore never match, so NAVY1 and ARMY2 get Unknown
Airline while still military; the two-character AF table key matches exactly
the callsign AF, so AF123 gets Unknown Airline while still military, and the
only other way to the Air Force name is the RCH key. -/
theorem nf_C10 (c : PyStr) :
    get_airline_name c = get_airline_name (c.take 3) ∧
    get_airline_name c ≠ ("Military - Navy").toList ∧
    get_airline_name c ≠ ("Military - Army").toList ∧
    (get_airline_name c = ("Military - Air Force").toList →
      c.take 3 = ("RCH").toList ∨ c = ("AF").toList) ∧
    (c.take 3 = ("AF").toList ↔ c = ("AF").toList) ∧
    get_airline_name (("NAVY1").toList) = ("Unknown Airline").toList ∧
    isMilitary (("NAVY1").toList) = true ∧
    get_airline_name (("ARMY2").toList) = ("Unknown Airline").toList ∧
    isMilitary (("ARMY2").toList) = true ∧
    get_airline_name (("AF123").toList) = ("Unknown Airline").toList ∧
    isMilitary (("AF123").toList) = true ∧
    get_airline_name (("AF").toList) = ("Military - Air Force").toList := by
  have hlen : (c.take 3).length ≤ 3 := by
    rw [List.length_take]
    omega
  have hAF : c.take 3 = ("AF").toList ↔ c = ("AF").toList := by
    constructor
    · intro h
      rcases c with _ | ⟨a, c⟩
      · simp at h
      rcases c with _ | ⟨b, c⟩
      · simp [List.take] at h
      rcases c with _ | ⟨x, c⟩
      · simpa [List.take] using h
      · simp [List.take] at h
    · intro h
      subst h
      rfl
  refine ⟨?_, ?_, ?_, ?_, hAF,
    by decide, by decide, by decide, by decide, by decide, by decide, by decide⟩
  · unfold get_airline_name
    rw [List.take_take, Nat.min_self]
  · unfold get_airline_name
    simp only [airline_map, List.lookup_cons, List.lookup_nil]
    repeat' split
    all_goals try decide
    all_goals (rename_i h; simp only [beq_iff_eq] at h; rw [h] at hlen; exact absurd hlen (by decide))
  · unfold get_airline_name
    simp only [airline_map, List.lookup_cons, List.lookup_nil]
    repeat' split
    all_goals try decide
    all_goals (rename_i h; simp only [beq_iff_eq] at h; rw [h] at hlen; exact absurd hlen (by decide))
  · unfold get_airline_name
    simp only [airline_map, List.lookup_cons, List.lookup_nil]
    repeat' split
    all_goals (rename_i h; try simp only [beq_iff_eq] at h)
    all_goals
      first
      | (intro hx; exact absurd hx (by decide))
      | (intro _; exact Or.inl h)
      | (intro _; exact Or.inr (hAF.mp h))

/-- C8 as stated is false at an 11-flight list: the table the live loop
renders (build_table) holds one row per flight of the whole list, 11 rows
here, not only the 10-row page containing the selection. -/
theorem nf_C8_counterexample :
    (cycle_table elevenFlights 0).length = 11 ∧ 10 < (cycle_table elevenFlights 0).length :=
  ⟨rfl, by decide⟩

/-- C8 amended: each cycle the live loop renders build_table, one row per
flight of the entire ranked list with exactly the row at the selection index
highlighted; the page-of-10 slicing (page = selectionIndex / 10, at most 10
rows, all of them and the selection on that page) and the Page X of Y footer
with Y = ceil(total / 10) live in display_flights, which the loop never
calls. -/
theorem nf_C8 (flights : List Flight) (sel : Nat) :
    (cycle_table flights sel).length = flights.length ∧
    (∀ r, r ∈ cycle_table flights sel → (r.highlighted = true ↔ r.index = sel)) ∧
    (display_rows flights sel).length ≤ 10 ∧
    (∀ r, r ∈ display_rows flights sel → r.index / 10 = sel / 10) ∧
    (sel < flights.length → ∃ r, r ∈ display_rows flights sel ∧ r.index = sel) ∧
    footer flights sel = ("Page ").toList ++ (Nat.repr (sel / 10 + 1)).toList ++
      (" of ").toList ++ (Nat.repr ((flights.length + 9) / 10)).toList := by
  have heq : display_rows flights sel =
      (List.range' ((sel / 10) * 10) (min ((sel / 10) * 10 + 10) flights.length - (sel / 10) * 10)).filterMap
        (fun i => (flights.get? i).map
          (fun f => ({ index := i, flight := f, highlighted := i == sel } : TableRow))) := rfl
  refine ⟨?_, ?_, ?_, ?_, ?_, rfl⟩
  · simp [cycle_table, build_table]
  · intro r hr
    simp only [cycle_table, build_table, List.mem_map] at hr
    obtain ⟨p, hp, rfl⟩ := hr
    simp [beq_iff_eq]
  · rw [heq]
    calc ((List.range' ((sel / 10) * 10) (min ((sel / 10) * 10 + 10) flights.length - (sel / 10) * 10)).filterMap
          (fun i => (flights.get? i).map
            (fun f => ({ index := i, flight := f, highlighted := i == sel } : TableRow)))).length
        ≤ (List.range' ((sel / 10) * 10) (min ((sel / 10) * 10 + 10) flights.length - (sel / 10) * 10)).length :=
          List.length_filterMap_le _ _
      _ ≤ 10 := by
          rw [List.length_range']
          omega
  · intro r hr
    rw [heq] at hr
    simp only [List.mem_filterMap, Option.map_eq_some'] at hr
    obtain ⟨i, hi, f, hf, rfl⟩ := hr
    have hib := List.mem_range'.mp hi
    obtain ⟨k, hk, rfl⟩ := hib
    dsimp only
    omega
  · intro hsel
    have hf : flights.get? sel = some (flights.get ⟨sel, hsel⟩) := List.get?_eq_get hsel
    refine ⟨{ index := sel, flight := flights.get ⟨sel, hsel⟩, highlighted := sel == sel }, ?_, rfl⟩
    rw [heq]
    simp only [List.mem_filterMap, Option.map_eq_some']
    refine ⟨sel, ?_, flights.get ⟨sel, hsel⟩, hf, rfl⟩
    rw [List.mem_range']
    refine ⟨sel - (sel / 10) * 10, ?_, ?_⟩ <;> omega

end NearFlights
